import Mathlib

/-!
Verification development for the `minima` HTTP router and middleware
dispatcher (Go, `minima.go`).  The source file holds two variants of the
framework: the primary `Minima` struct with its methods (`New`, `Listen`,
`ServeHTTP`, `SetProp`, `GetProp`, `Use`, `UseRaw`, `ServeMiddleware`), and a
second, lowercase `minima` struct with its own `ServeHTTP` loop.

Shallow embedding conventions:
  - Handler functions (`Handler`, `http.HandlerFunc`) are opaque to the
    dispatcher, so they are embedded as abstract identifiers (`Nat`); a
    dispatch run produces a trace of `Event`s recording which handlers ran,
    in which order, and what was written to the response.
  - Go `panic` (nil-map assignment, slice index out of range, `log.Panicf`)
    is embedded as `Option`/a dedicated outcome constructor.
  - Go maps are embedded as association lists; a read of a missing key
    yields the zero value, and `nil` maps are `Option.none`.
  - The `Router` type itself (`NewRouter`, `routes[...].Get`, `matchingPath`,
    `Next`, `Plugins.ServePlugin`) is not part of the provided source file;
    those pieces are modelled from the spec and are marked as such below.
-/

namespace MinimaGo

/-- A captured parameter set: parameter name to captured value, in pattern
order, produced fresh per request. -/
abbrev Params := List (String × String)

/-- One slash-delimited token of a route pattern: a literal segment, a named
parameter segment (`:name`), or a trailing wildcard segment (`*name`). -/
inductive Seg where
  | literal (s : String)
  | param (name : String)
  | wildcard (name : String)
deriving DecidableEq

/-- Splits a list of characters at `/`, accumulating the current segment.
Structural helper for `splitPath`. -/
def splitAux : List Char → List Char → List String
  | [], acc => [String.mk acc.reverse]
  | c :: cs, acc =>
    if c = '/' then String.mk acc.reverse :: splitAux cs []
    else splitAux cs (c :: acc)

/-- Path normalization: split a request path on `/` and drop empty segments
(leading slash, trailing slash, doubled slashes). -/
def splitPath (p : String) : List String :=
  (splitAux p.toList []).filter (fun s => s ≠ "")

/-- Rejoins the unconsumed path segments with `/`, for the wildcard capture. -/
def joinPath : List String → String
  | [] => ""
  | [x] => x
  | x :: xs => x ++ "/" ++ joinPath xs

/-- Modelled from the spec: the pattern matcher (`matchingPath` in the second
variant, and the matcher behind `routes[method].Get` in the first) is not in
the provided source file.  Following spec section 4.1, the pattern and path
segment lists are walked in lockstep: a literal must equal the path segment
exactly, a parameter captures the path segment verbatim under its name, a
wildcard captures the remaining unconsumed suffix rejoined with `/` and
terminates the walk successfully, and a segment-count mismatch without a
wildcard is a non-match. -/
def matchSegs : List Seg → List String → Option Params
  | [], [] => some []
  | Seg.wildcard n :: _, rest => some [(n, joinPath rest)]
  | Seg.literal s :: ps, x :: xs => if s = x then matchSegs ps xs else none
  | Seg.param n :: ps, x :: xs => (matchSegs ps xs).map (fun acc => (n, x) :: acc)
  | _, _ => none

/-- Modelled from the spec: structural match of a compiled route pattern
against a request path (spec section 4.1). -/
def matchingPath (pat : List Seg) (path : String) : Option Params :=
  matchSegs pat (splitPath path)

/-- Observable events of one dispatch run, in execution order. -/
inductive Event where
  /-- A raw `net/http` middleware handler ran (`raw(res.ref, req.ref)`). -/
  | ranRaw (id : Nat)
  /-- A Minima middleware handler ran (`min(res, req)`), or in the second
  variant, a plugin handler ran. -/
  | ranMin (id : Nat)
  /-- The matched route's handler ran, with the captured parameters. -/
  | ranHandler (id : Nat) (ps : Params)
  /-- The router's not-found handler ran. -/
  | ranNotFound (id : Nat)
  /-- A body was written to the response (`w.Write`). -/
  | wroteBody (s : String)
  /-- A line was emitted to the log (`log.Printf`). -/
  | logged (s : String)
deriving DecidableEq

/-- A Go `interface{}` value stored in the properties map; `GoValue.nil` is
the zero value of the interface type. -/
inductive GoValue where
  | nil
  | str (s : String)
  | int (n : Int)
deriving DecidableEq

/-- Association-list read with default, modelling a Go map read: a missing
key yields the zero value. -/
def lookupD {α : Type} : List (String × α) → String → α → α
  | [], _, d => d
  | (k', v) :: rest, k, d => if k' = k then v else lookupD rest k d

/-- Association-list overwrite, modelling a Go map assignment on an
initialized map. -/
def mapInsert : List (String × GoValue) → String → GoValue → List (String × GoValue)
  | [], k, v => [(k, v)]
  | (k', v') :: rest, k, v =>
    if k' = k then (k, v) :: rest else (k', v') :: mapInsert rest k v

/-- A registered route of the first variant: a compiled pattern bound to the
single handler that `routes[method].Get` returns for it. -/
structure Route where
  pattern : List Seg
  handler : Nat
deriving DecidableEq

/-- The first variant's framework state (struct `Minima` in the source).
`server`, `Timeout`, `Config` and the `drain` duration carry no routing
behavior; of those only the server address (set by `Listen`) is kept.
`routes` embeds `router.routes` (method to ordered route list), `notfound`
embeds `router.notfound`, and `properties` is `none` while the Go map is
still nil. -/
structure Minima where
  started : Bool
  serverAddr : Option String
  routes : List (String × List Route)
  notfound : Option Nat
  minmiddleware : List Nat
  rawmiddleware : List Nat
  properties : Option (List (String × GoValue))
deriving DecidableEq

/-- `New()` of the first variant: fresh router (empty tables, no not-found
handler), no middleware, and — decisively for `SetProp` — the `properties`
map left uninitialized (nil). -/
def New : Minima :=
  { started := false
    serverAddr := none
    routes := []
    notfound := none
    minmiddleware := []
    rawmiddleware := []
    properties := none }

/-- Outcome of `Listen`: either the `log.Panicf` panic on an already started
instance (carrying `m.server.Addr`, the address the panic message formats),
or the state at the moment `ListenAndServe` is delegated to. -/
inductive ListenOutcome where
  | panicked (addr : Option String)
  | listening (m : Minima)
deriving DecidableEq

/-- `Minima.Listen`: panics (via `log.Panicf`) if the instance is already
started; otherwise stores the server (its address) and marks the instance
started before delegating to `ListenAndServe`. -/
def Minima.Listen (m : Minima) (addr : String) : ListenOutcome :=
  if m.started then ListenOutcome.panicked m.serverAddr
  else ListenOutcome.listening { m with serverAddr := some addr, started := true }

/-- `Minima.SetProp`: a Go map assignment `m.properties[key] = value`.
Assignment to a nil map panics in Go, embedded as `none`. -/
def Minima.SetProp (m : Minima) (key : String) (value : GoValue) : Option Minima :=
  match m.properties with
  | none => none
  | some props => some { m with properties := some (mapInsert props key value) }

/-- `Minima.GetProp`: a Go map read `m.properties[key]`.  A read from a nil
map (and from a missing key) yields the zero value of `interface\x7b\x7d`. -/
def Minima.GetProp (m : Minima) (key : String) : GoValue :=
  match m.properties with
  | none => GoValue.nil
  | some props => lookupD props key GoValue.nil

/-- `Minima.Use`: appends Minima middleware handlers to the stack. -/
def Minima.Use (m : Minima) (handler : List Nat) : Minima :=
  { m with minmiddleware := m.minmiddleware ++ handler }

/-- `Minima.UseRaw`: appends raw `net/http` middleware handlers to the
stack. -/
def Minima.UseRaw (m : Minima) (handler : List Nat) : Minima :=
  { m with rawmiddleware := m.rawmiddleware ++ handler }

/-- `Minima.ServeMiddleware`, embedded exactly as written in the source:
if the raw stack is empty the function returns at once (so the Minima stack
is not reached); otherwise every raw handler runs in order, then — unless
the Minima stack is empty — every Minima handler runs in order. -/
def Minima.ServeMiddleware (m : Minima) : List Event :=
  if m.rawmiddleware.length = 0 then []
  else
    m.rawmiddleware.map Event.ranRaw ++
      (if m.minmiddleware.length = 0 then []
       else m.minmiddleware.map Event.ranMin)

/-- Modelled from the spec: `routes[method].Get(path)` of the first variant
(the `Router`'s per-method collection and its `Get` method are not in the
provided source).  Spec section 4.2 (`resolve`): linear scan of the method's
route list in insertion order, returning the first structural match with its
captured parameters; no match yields `found = false`. -/
def routesGet : List Route → String → Option (Nat × Params)
  | [], _ => none
  | rt :: rest, path =>
    match matchingPath rt.pattern path with
    | some ps => some (rt.handler, ps)
    | none => routesGet rest path

/-- The per-request input the dispatcher sees: method, URL path, and whether
`r.ParseForm()` succeeds (an external condition of the transport request). -/
structure Request where
  method : String
  path : String
  parseFormOk : Bool
deriving DecidableEq

/-- `Minima.ServeHTTP`, the first variant's dispatcher: look the path up in
the method's table; on a match, parse the form (on failure log and return
with nothing written), then run `ServeMiddleware`, then the matched handler
with the captured parameters; on no match, run the not-found handler if one
is set, else write the fixed fallback body.  The state is threaded to record
that serving only reads it. -/
def Minima.ServeHTTP (m : Minima) (r : Request) : Minima × List Event :=
  match routesGet (lookupD m.routes r.method []) r.path with
  | some (f, params) =>
    if r.parseFormOk then
      (m, m.ServeMiddleware ++ [Event.ranHandler f params])
    else
      (m, [Event.logged "Error parsing form"])
  | none =>
    match m.notfound with
    | some nf => (m, [Event.ranNotFound nf])
    | none => (m, [Event.wroteBody "No matching route found"])

/-- The route lookup of `Minima.ServeHTTP` as a standalone operation
(spec section 4.2 `resolve`), with the framework state threaded through to
record that resolution reads the table and returns it unchanged. -/
def Minima.resolve (m : Minima) (method path : String) :
    Option (Nat × Params) × Minima :=
  (routesGet (lookupD m.routes method []) path, m)

/-- A registered route of the second variant: a compiled pattern bound to an
ordered handler slice (`requestQuery.Handlers`). -/
structure Route2 where
  pattern : List Seg
  Handlers : List Nat
deriving DecidableEq

/-- The second variant's framework state (struct `minima` in the source):
a router with per-method route lists and a single `Plugins` middleware
stack; it has no not-found handler field. -/
structure minima where
  started : Bool
  routes : List (String × List Route2)
  plugins : List Nat
  properties : Option (List (String × GoValue))
deriving DecidableEq

/-- The scan performed by the second variant's `ServeHTTP` loop: walk the
method's route list in order and stop at the first route whose
`matchingPath` succeeds, returning it with its captured parameters. -/
def firstMatch : List Route2 → String → Option (Route2 × Params)
  | [], _ => none
  | rq :: rest, path =>
    match matchingPath rq.pattern path with
    | some ps => some (rq, ps)
    | none => firstMatch rest path

/-- Modelled from the spec: `Plugins.ServePlugin` (the `Plugins` type is not
in the provided source).  Spec section 4.3: every globally registered
middleware handler runs, in registration order. -/
def ServePlugin (plugins : List Nat) : List Event :=
  plugins.map Event.ranMin

/-- `minima.ServeHTTP`, the second variant's dispatcher: iterate the
method's route list; at the first match, parse the form (on failure log and
return — `match` is already true, so the fallback write is skipped), run the
plugin stack, then hand `Handlers[0]` with the captured parameters to
`router.Next` and break.  `Handlers[0]` on an empty slice is a Go
index-out-of-range panic, embedded as `none`.  If the loop finds no match,
write the fixed fallback body. -/
def minima.ServeHTTP (m : minima) (r : Request) : Option (List Event) :=
  match firstMatch (lookupD m.routes r.method []) r.path with
  | some (rq, ps) =>
    if r.parseFormOk then
      match rq.Handlers.head? with
      | some h => some (ServePlugin m.plugins ++ [Event.ranHandler h ps])
      | none => none
    else some [Event.logged "Error parsing form"]
  | none => some [Event.wroteBody "No matching route found"]

/-- Pointwise correspondence of a first-variant route table with a
second-variant one: same patterns in the same order, and each
second-variant entry's first handler is the first variant's handler. -/
def routesCorr : List Route → List Route2 → Bool
  | [], [] => true
  | r1 :: t1, r2 :: t2 =>
    decide (r1.pattern = r2.pattern) &&
      decide (r2.Handlers.head? = some r1.handler) && routesCorr t1 t2
  | _, _ => false

/-! Concrete example configurations used by the closed theorems below. -/

/-- One route, one Minima middleware registered via `Use`, empty raw stack. -/
def appC1 : Minima :=
  Minima.Use
    { New with routes := [("GET", [{ pattern := [Seg.literal "x"], handler := 7 }])] }
    [3]

/-- The matched request for `appC1`. -/
def reqC1 : Request := { method := "GET", path := "/x", parseFormOk := true }

/-- No routes, one raw and one Minima middleware registered. -/
def appC2 : Minima := Minima.Use (Minima.UseRaw New [1]) [2]

/-- A request no route of `appC2` matches. -/
def reqC2 : Request := { method := "GET", path := "/x", parseFormOk := true }

/-- No routes, one Minima middleware registered. -/
def appC2w : Minima := Minima.Use New [4]

/-- A request no route of `appC2w` matches. -/
def reqC2w : Request := { method := "GET", path := "/y", parseFormOk := true }

/-- No routes, a not-found handler set. -/
def appC3 : Minima := { New with notfound := some 5 }

/-- A request no route of `appC3` matches. -/
def reqC3 : Request := { method := "GET", path := "/nope", parseFormOk := true }

/-- An instance whose server is already started. -/
def appC10 : Minima := { New with started := true, serverAddr := some ":3000" }

/-- Two second-variant routes for the scan-order example: a literal route
registered first, a parameter route registered second. -/
def routeC4 : Route2 :=
  { pattern := [Seg.literal "users", Seg.param "id"], Handlers := [2, 9] }

/-- Second-variant instance with two GET routes in registration order. -/
def appC4 : minima :=
  { started := false
    routes := [("GET",
      [{ pattern := [Seg.literal "users", Seg.literal "active"], Handlers := [1] },
       routeC4])]
    plugins := []
    properties := none }

/-- A request the second registered route of `appC4` matches. -/
def reqC4 : Request := { method := "GET", path := "/users/42", parseFormOk := true }

/-- First-variant instance with a not-found handler set and no routes. -/
def appC5a : Minima := { New with notfound := some 9 }

/-- Second-variant instance with no routes (it has no not-found field). -/
def appC5b : minima :=
  { started := false, routes := [], plugins := [], properties := none }

/-- A request neither `appC5a` nor `appC5b` can match. -/
def reqC5 : Request := { method := "GET", path := "/x", parseFormOk := true }

/-- First-variant instance with a single literal route and no middleware. -/
def appC5w1 : Minima :=
  { New with routes := [("GET", [{ pattern := [Seg.literal "ping"], handler := 7 }])] }

/-- Second-variant instance corresponding to `appC5w1`: same pattern, its
handler slice starting with the same handler. -/
def appC5w2 : minima :=
  { started := false
    routes := [("GET", [{ pattern := [Seg.literal "ping"], Handlers := [7, 8] }])]
    plugins := []
    properties := none }

/-- A request matching the one route of `appC5w1` and `appC5w2`. -/
def reqC5w : Request := { method := "GET", path := "/ping", parseFormOk := true }

/-- First-variant instance with one parameter route. -/
def appC9 : Minima :=
  { New with routes := [("GET", [{ pattern := [Seg.param "id"], handler := 2 }])] }

/-- Second-variant instance with the same parameter route and a plugin. -/
def appC9b : minima :=
  { started := false
    routes := [("GET", [{ pattern := [Seg.param "id"], Handlers := [2] }])]
    plugins := [6]
    properties := none }

/-- A request matching the route of `appC9` whose form parsing fails. -/
def reqC9 : Request := { method := "GET", path := "/42", parseFormOk := false }

/-! Theorems. -/

/-- Helper for the scan-order theorem: if entry `i` of the route list
structurally matches the path and every entry before it fails to match, the
second variant's scan selects entry `i` with its captured parameters. -/
theorem firstMatch_of_prefix_fail (path : String) :
    ∀ (rs : List Route2) (i : Nat) (rq : Route2) (ps : Params),
      rs.get? i = some rq →
      matchingPath rq.pattern path = some ps →
      ((rs.take i).all fun rj => (matchingPath rj.pattern path).isNone) = true →
      firstMatch rs path = some (rq, ps)
  | [], i, rq, ps, hi, _, _ => by simp at hi
  | a :: rest, 0, rq, ps, hi, hm, _ => by
    simp only [List.get?_cons_zero, Option.some.injEq] at hi
    subst hi
    simp [firstMatch, hm]
  | a :: rest, Nat.succ i, rq, ps, hi, hm, hall => by
    simp only [List.take_succ_cons, List.all_cons, Bool.and_eq_true] at hall
    obtain ⟨ha, hrest⟩ := hall
    have hnone : matchingPath a.pattern path = none := Option.isNone_iff_eq_none.mp ha
    simp only [List.get?_cons_succ] at hi
    simp only [firstMatch, hnone]
    exact firstMatch_of_prefix_fail path rest i rq ps hi hm hrest

/-- Helper for the equivalence theorem: on pointwise-corresponding route
tables, the first variant's modelled `routes.Get` and the second variant's
scan agree — both fail, or both select corresponding entries with the same
captured parameters, the selected first-variant handler being the head of
the selected second-variant handler slice. -/
theorem corr_resolve (path : String) :
    ∀ (l1 : List Route) (l2 : List Route2), routesCorr l1 l2 = true →
      (routesGet l1 path = none ∧ firstMatch l2 path = none) ∨
      (∃ f ps rq, routesGet l1 path = some (f, ps) ∧
        firstMatch l2 path = some (rq, ps) ∧ rq.Handlers.head? = some f)
  | [], [], _ => Or.inl ⟨rfl, rfl⟩
  | [], _ :: _, h => by simp [routesCorr] at h
  | _ :: _, [], h => by simp [routesCorr] at h
  | r1 :: t1, r2 :: t2, h => by
    simp only [routesCorr, Bool.and_eq_true, decide_eq_true_eq] at h
    obtain ⟨⟨hpat, hhd⟩, hrest⟩ := h
    cases hmm : matchingPath r1.pattern path with
    | some ps =>
      refine Or.inr ⟨r1.handler, ps, r2, ?_, ?_, hhd⟩
      · simp [routesGet, hmm]
      · simp [firstMatch, ← hpat, hmm]
    | none =>
      have ih := corr_resolve path t1 t2 hrest
      have h1 : routesGet (r1 :: t1) path = routesGet t1 path := by
        simp [routesGet, hmm]
      have h2 : firstMatch (r2 :: t2) path = firstMatch t2 path := by
        have hm2 : matchingPath r2.pattern path = none := by rw [← hpat]; exact hmm
        simp [firstMatch, hm2]
      rw [h1, h2]
      exact ih

/-- C4: the second variant's dispatcher scans the method's route list in
registration order and the first structurally matching pattern wins: if
entry `i` matches and every earlier entry fails, dispatch runs exactly that
entry's first handler with its captured parameters — whatever patterns come
later in the list (no specificity reordering). -/
theorem C4_first_match_wins (m : minima) (r : Request) (i : Nat)
    (rq : Route2) (h0 : Nat) (ps : Params)
    (hi : (lookupD m.routes r.method []).get? i = some rq)
    (hm : matchingPath rq.pattern r.path = some ps)
    (hall : (((lookupD m.routes r.method []).take i).all
        fun rj => (matchingPath rj.pattern r.path).isNone) = true)
    (hpf : r.parseFormOk = true)
    (hhd : rq.Handlers.head? = some h0) :
    minima.ServeHTTP m r = some (ServePlugin m.plugins ++ [Event.ranHandler h0 ps]) := by
  have hfm := firstMatch_of_prefix_fail r.path (lookupD m.routes r.method []) i rq ps hi hm hall
  simp [minima.ServeHTTP, hfm, hpf, hhd]

/-- C4 witness: in `appC4` the literal route `/users/active` is registered
before the parameter route `/users/:id`; the request `/users/42` fails the
first entry, matches the second (index 1), and dispatch runs that entry's
first handler `2` with `id = 42`. -/
theorem C4_first_match_wins_witness :
    (lookupD appC4.routes reqC4.method []).get? 1 = some routeC4 ∧
    matchingPath routeC4.pattern reqC4.path = some [("id", "42")] ∧
    (((lookupD appC4.routes reqC4.method []).take 1).all
        fun rj => (matchingPath rj.pattern reqC4.path).isNone) = true ∧
    reqC4.parseFormOk = true ∧
    routeC4.Handlers.head? = some 2 ∧
    minima.ServeHTTP appC4 reqC4 = some [Event.ranHandler 2 [("id", "42")]] :=
  ⟨by decide, by decide, by decide, rfl, rfl,
    C4_first_match_wins appC4 reqC4 1 routeC4 2 [("id", "42")]
      (by decide) (by decide) (by decide) rfl rfl⟩

/-- C5 counterexample: the two dispatchers are not observationally
equivalent.  With identical (empty) route tables and no middleware on either
side, a request that matches nothing makes the first variant run the
not-found handler it supports, while the second variant — which has no
not-found configuration at all — writes the fixed fallback body: the traces
differ. -/
theorem C5_counterexample :
    appC5a.routes = [] ∧ appC5b.routes = [] ∧
    appC5a.minmiddleware = [] ∧ appC5a.rawmiddleware = [] ∧ appC5b.plugins = [] ∧
    some (appC5a.ServeHTTP reqC5).2 ≠ minima.ServeHTTP appC5b reqC5 := by decide

/-- C5 amended: the two dispatchers agree whenever the first variant has no
not-found handler set, the two middleware stacks produce the same execution
trace, and the route tables correspond entry by entry (same patterns in the
same order, the second variant's first handler equal to the first variant's
handler): on every request, both produce the same dispatch trace. -/
theorem C5_amended_equiv (m1 : Minima) (m2 : minima) (r : Request)
    (hnf : m1.notfound = none)
    (hmw : m1.ServeMiddleware = ServePlugin m2.plugins)
    (hr : routesCorr (lookupD m1.routes r.method [])
        (lookupD m2.routes r.method []) = true) :
    minima.ServeHTTP m2 r = some (m1.ServeHTTP r).2 := by
  rcases corr_resolve r.path (lookupD m1.routes r.method [])
      (lookupD m2.routes r.method []) hr with
    ⟨h1, h2⟩ | ⟨f, ps, rq, h1, h2, hhd⟩
  · simp [Minima.ServeHTTP, minima.ServeHTTP, h1, h2, hnf]
  · cases hpf : r.parseFormOk with
    | false => simp [Minima.ServeHTTP, minima.ServeHTTP, h1, h2, hpf]
    | true => simp [Minima.ServeHTTP, minima.ServeHTTP, h1, h2, hpf, hhd, hmw]

/-- C5 amended, witness: `appC5w1` and `appC5w2` carry corresponding route
tables, no middleware, and no not-found override; on the matching request
both dispatchers produce the same trace. -/
theorem C5_amended_equiv_witness :
    appC5w1.notfound = none ∧
    appC5w1.ServeMiddleware = ServePlugin appC5w2.plugins ∧
    routesCorr (lookupD appC5w1.routes reqC5w.method [])
      (lookupD appC5w2.routes reqC5w.method []) = true ∧
    minima.ServeHTTP appC5w2 reqC5w = some (appC5w1.ServeHTTP reqC5w).2 :=
  ⟨rfl, rfl, by decide, C5_amended_equiv appC5w1 appC5w2 reqC5w rfl rfl (by decide)⟩

/-- C9: on a matched request whose form parsing fails, both dispatchers
abort at once: the trace is only the log line — no middleware event, no
handler event, and nothing written to the response. -/
theorem C9_parse_form_abort (m1 : Minima) (m2 : minima) (r : Request)
    (h1 : routesGet (lookupD m1.routes r.method []) r.path ≠ none)
    (h2 : firstMatch (lookupD m2.routes r.method []) r.path ≠ none)
    (hpf : r.parseFormOk = false) :
    (m1.ServeHTTP r).2 = [Event.logged "Error parsing form"] ∧
    minima.ServeHTTP m2 r = some [Event.logged "Error parsing form"] := by
  constructor
  · cases hg : routesGet (lookupD m1.routes r.method []) r.path with
    | none => exact absurd hg h1
    | some fp =>
      obtain ⟨f, ps⟩ := fp
      simp [Minima.ServeHTTP, hg, hpf]
  · cases hg : firstMatch (lookupD m2.routes r.method []) r.path with
    | none => exact absurd hg h2
    | some rp =>
      obtain ⟨rq, ps⟩ := rp
      simp [minima.ServeHTTP, hg, hpf]

/-- C9 witness: `reqC9` matches the parameter route of both `appC9` and
`appC9b` but its form parsing fails; both dispatch traces are only the log
line, although `appC9b` even has a plugin registered. -/
theorem C9_parse_form_abort_witness :
    routesGet (lookupD appC9.routes reqC9.method []) reqC9.path ≠ none ∧
    firstMatch (lookupD appC9b.routes reqC9.method []) reqC9.path ≠ none ∧
    (appC9.ServeHTTP reqC9).2 = [Event.logged "Error parsing form"] ∧
    minima.ServeHTTP appC9b reqC9 = some [Event.logged "Error parsing form"] :=
  ⟨by decide, by decide,
    C9_parse_form_abort appC9 appC9b reqC9 (by decide) (by decide) rfl⟩

/-- C1: the claim says every globally registered middleware handler (raw and
Minima stacks) runs for every matched request.  The code violates this:
`ServeMiddleware` returns as soon as it sees an empty raw stack, so with no
raw middleware registered, a Minima middleware registered via `Use` is
skipped entirely even on a matched request.  Here `appC1` has Minima
middleware `3` registered, the request matches route handler `7`, and the
dispatch trace holds only the route handler. -/
theorem C1_middleware_skip_bug :
    appC1.minmiddleware = [3] ∧
    (appC1.ServeHTTP reqC1).2 = [Event.ranHandler 7 []] ∧
    Event.ranMin 3 ∉ (appC1.ServeHTTP reqC1).2 := by decide

/-- C2 counterexample: the claim says all registered global middleware runs
even when no route matches.  In `appC2` a raw middleware `1` and a Minima
middleware `2` are registered and no route matches `reqC2`, yet the dispatch
trace is only the fallback write: neither middleware ran. -/
theorem C2_counterexample :
    appC2.rawmiddleware = [1] ∧ appC2.minmiddleware = [2] ∧
    (appC2.ServeHTTP reqC2).2 = [Event.wroteBody "No matching route found"] ∧
    Event.ranRaw 1 ∉ (appC2.ServeHTTP reqC2).2 ∧
    Event.ranMin 2 ∉ (appC2.ServeHTTP reqC2).2 := by decide

/-- C2 amended: middleware runs only on the matched path; when no route
matches the request's method and path, the dispatch trace contains no
middleware event at all (only the not-found outcome). -/
theorem C2_amended_no_middleware_on_nomatch (m : Minima) (r : Request)
    (hnm : routesGet (lookupD m.routes r.method []) r.path = none) :
    ∀ e ∈ (m.ServeHTTP r).2, (∀ i, e ≠ Event.ranRaw i) ∧ (∀ i, e ≠ Event.ranMin i) := by
  intro e he
  cases hnf : m.notfound with
  | none =>
    simp [Minima.ServeHTTP, hnm, hnf] at he
    subst he
    exact ⟨fun i h => (nomatch h), fun i h => (nomatch h)⟩
  | some nf =>
    simp [Minima.ServeHTTP, hnm, hnf] at he
    subst he
    exact ⟨fun i h => (nomatch h), fun i h => (nomatch h)⟩

/-- C2 amended, witness: on `appC2w` (one Minima middleware, no routes) the
request `reqC2w` matches nothing and its trace holds no middleware event. -/
theorem C2_amended_witness :
    routesGet (lookupD appC2w.routes reqC2w.method []) reqC2w.path = none ∧
    ∀ e ∈ (appC2w.ServeHTTP reqC2w).2,
      (∀ i, e ≠ Event.ranRaw i) ∧ (∀ i, e ≠ Event.ranMin i) :=
  ⟨by decide, C2_amended_no_middleware_on_nomatch appC2w reqC2w (by decide)⟩

/-- C3: when no route matches the request's method and path, the dispatcher
invokes the not-found handler if one is set, and otherwise writes exactly
the fixed plain-text fallback body; either way dispatch terminates with just
that outcome and no error. -/
theorem C3_notfound_outcome (m : Minima) (r : Request)
    (hnm : routesGet (lookupD m.routes r.method []) r.path = none) :
    (m.ServeHTTP r).2 =
      (match m.notfound with
       | some nf => [Event.ranNotFound nf]
       | none => [Event.wroteBody "No matching route found"]) := by
  cases hnf : m.notfound <;> simp [Minima.ServeHTTP, hnm, hnf]

/-- C3 witness: `appC3` has not-found handler `5` set; a request matching no
route runs exactly that handler. -/
theorem C3_notfound_witness :
    routesGet (lookupD appC3.routes reqC3.method []) reqC3.path = none ∧
    (appC3.ServeHTTP reqC3).2 = [Event.ranNotFound 5] :=
  ⟨by decide, C3_notfound_outcome appC3 reqC3 (by decide)⟩

/-- C6: dispatching a request never mutates the router or its tables: after
`ServeHTTP`, the routes, the not-found handler and both middleware stacks
are identical to what they were before the call. -/
theorem C6_serve_preserves_table (m : Minima) (r : Request) :
    (m.ServeHTTP r).1.routes = m.routes ∧
    (m.ServeHTTP r).1.notfound = m.notfound ∧
    (m.ServeHTTP r).1.minmiddleware = m.minmiddleware ∧
    (m.ServeHTTP r).1.rawmiddleware = m.rawmiddleware := by
  have h : (m.ServeHTTP r).1 = m := by
    unfold Minima.ServeHTTP
    split
    · split <;> rfl
    · split <;> rfl
  rw [h]
  exact ⟨rfl, rfl, rfl, rfl⟩

/-- C7: route resolution is deterministic and idempotent: resolving the same
method and path twice in sequence returns the same found flag, handler and
parameter set both times, and leaves the framework state exactly as it
was. -/
theorem C7_resolve_idempotent (m : Minima) (method path : String) :
    ((m.resolve method path).2.resolve method path).1 = (m.resolve method path).1 ∧
    ((m.resolve method path).2.resolve method path).2 = m :=
  ⟨rfl, rfl⟩

/-- C8: on an instance freshly created by `New`, the properties map is still
nil, so `SetProp` panics (Go assignment to a nil map, embedded as `none`)
for every key and value, and `GetProp` returns the zero value for every
key. -/
theorem C8_fresh_properties (key : String) (value : GoValue) :
    New.SetProp key value = none ∧ New.GetProp key = GoValue.nil :=
  ⟨rfl, rfl⟩

/-- C10: `Listen` on an already started instance panics via `log.Panicf`
rather than returning an error; on a not-yet-started instance it records the
server address and marks the instance started (and changes nothing else)
before delegating to the underlying HTTP server. -/
theorem C10_listen (m : Minima) (addr : String) :
    (m.started = true → m.Listen addr = ListenOutcome.panicked m.serverAddr) ∧
    (m.started = false →
      m.Listen addr =
        ListenOutcome.listening { m with serverAddr := some addr, started := true }) := by
  constructor <;> intro h <;> simp [Minima.Listen, h]

/-- C10 witness: the started instance `appC10` panics; the fresh instance
`New` transitions to a started instance listening on the given address. -/
theorem C10_listen_witness :
    (appC10.started = true ∧
      appC10.Listen ":4000" = ListenOutcome.panicked appC10.serverAddr) ∧
    (New.started = false ∧
      New.Listen ":4000" =
        ListenOutcome.listening { New with serverAddr := some ":4000", started := true }) :=
  ⟨⟨rfl, (C10_listen appC10 ":4000").1 rfl⟩, ⟨rfl, (C10_listen New ":4000").2 rfl⟩⟩

end MinimaGo
